import Mathlib

set_option maxRecDepth 200000

/-!
Verification of the svt-text tile pipeline.

Shallow embedding of the tile extraction, database, resolver, double-height
merge and render heuristics of the svt_text package (fetch.py, common.py,
render.py), together with theorems settling the frozen claims about them.

Conventions used throughout:
  a page image is a function from linear pixel position to palette index
  (the decoded `imdata` of `get_tiles`); a tile is the list of its 208
  palette indices in row-major order; colors are the single-letter color
  codes of COLOR_TABLE, so a palette is a function from palette index to
  color code.  Python `assert` failures and exceptions are modelled as
  `Except.error` with a short message naming the assertion.
-/

/-! ### Tile extraction (fetch.py, get_tiles and Tile.from_tile_im) -/

/-- Linear pixel list of tile (i, j) of a 520x400 image.  Mirrors
`imdata.reshape((25, 16, 40, 13)).swapaxes(1, 2)` in `get_tiles`: element
m (0 ≤ m < 208 = 16*13) of tile (i, j) is image pixel
(i*16 + m / 13) * 520 + j*13 + m % 13, row-major within the tile. -/
def tilePixels (imdata : Nat → Nat) (i j : Nat) : List Nat :=
  (List.range 208).map fun m => imdata ((i * 16 + m / 13) * 520 + j * 13 + m % 13)

/-- Per-pixel comparison with the color of the top-left pixel of the tile.
Mirrors `binary_tiles = (tiles == tiles[:, :, 0:1, 0:1])` in `get_tiles`
and `onebit = data == color_index_0` in `Tile.from_tile_im`: entry m is
`true` iff pixel m has the same palette index as pixel 0. -/
def tileBits (pixels : List Nat) (c0 : Nat) : List Bool :=
  pixels.map fun p => decide (p = c0)

/-- Pack up to 8 booleans into one byte value, little-endian: element 0 is
bit 0.  Equals the dot product with TWOP = [1,2,4,8,16,32,64,128] used by
`np.dot(onebit.reshape(-1, 8), TWOP)` and by the einsum in `get_tiles`. -/
def packByte : List Bool → Nat
  | [] => 0
  | b :: bs => (if b then 1 else 0) + 2 * packByte bs

/-- Pack a bit list into bytes, 8 bits per byte.  Mirrors
`reshape(-1, 8)` followed by the TWOP dot product. -/
def keyOfBits (bits : List Bool) : List Nat :=
  (List.range (bits.length / 8)).map fun k => packByte ((bits.drop (8 * k)).take 8)

/-- Key of a tile: the packed comparison bits against the top-left pixel.
Mirrors `keys = np.einsum('ijkm,m', binary_tiles.reshape(25,40,26,8), TWOP)`
and `key = tuple(np.dot(onebit.reshape(-1, 8), TWOP))`. -/
def tileKey (pixels : List Nat) : List Nat :=
  keyOfBits (tileBits pixels (pixels.getD 0 0))

/-- Index of the first pixel that differs from color 0.  Mirrors
`first_different = np.argmin(linear_binary_tiles, axis=2)`: `np.argmin` on
booleans returns the index of the first `False`, and 0 when every entry is
`True` (monochrome tile). -/
def firstDifferent (bits : List Bool) : Nat :=
  if false ∈ bits then bits.indexOf false else 0

/-- Color pair of a tile under palette `pal`: color 0 is the color of the
top-left pixel, color 1 the color of the first pixel differing from it.
Mirrors `color_0 = char_palette[color_0_inds]` and
`color_1 = char_palette[color_1_inds]` in `get_tiles`. -/
def tileColors (pal : Nat → Char) (pixels : List Nat) : Char × Char :=
  (pal (pixels.getD 0 0),
   pal (pixels.getD (firstDifferent (tileBits pixels (pixels.getD 0 0))) 0))

/-! ### Helper lemmas about the extractor -/

theorem packByte_testBit (bs : List Bool) (k : Nat) :
    Nat.testBit (packByte bs) k = bs.getD k false := by
  induction bs generalizing k with
  | nil => simp [packByte]
  | cons b bs ih =>
    cases k with
    | zero =>
      rw [Nat.testBit_zero]
      cases b <;> simp [packByte, Nat.add_mul_mod_self_left]
    | succ k =>
      rw [Nat.testBit_add_one]
      have hdiv : ((if b then 1 else 0) + 2 * packByte bs) / 2 = packByte bs := by
        cases b <;> simp <;> omega
      rw [packByte, hdiv, ih]
      simp

theorem tileBits_length (pixels : List Nat) (c0 : Nat) :
    (tileBits pixels c0).length = pixels.length := by
  simp [tileBits]

theorem tileKey_getD (pixels : List Nat) (hlen : pixels.length = 208)
    (n : Nat) (hn : n < 26) :
    (tileKey pixels).getD n 0 =
      packByte (((tileBits pixels (pixels.getD 0 0)).drop (8 * n)).take 8) := by
  have hb : (tileBits pixels (pixels.getD 0 0)).length = 208 := by
    rw [tileBits_length, hlen]
  unfold tileKey keyOfBits
  rw [hb]
  have hlt : n < ((List.range (208 / 8)).map fun k =>
      packByte (((tileBits pixels (pixels.getD 0 0)).drop (8 * k)).take 8)).length := by
    simpa using hn
  rw [List.getD_eq_getElem _ _ hlt, List.getElem_map, List.getElem_range]

theorem chunk_getD (l : List Bool) (n b : Nat) (hl : l.length = 208)
    (hn : n < 26) (hb : b < 8) :
    ((l.drop (8 * n)).take 8).getD b false = l.getD (8 * n + b) false := by
  have h1 : 8 * n + b < l.length := by omega
  have h2 : b < ((l.drop (8 * n)).take 8).length := by
    simp [hl]
    omega
  rw [List.getD_eq_getElem _ _ h2, List.getD_eq_getElem _ _ h1]
  rw [List.getElem_take, List.getElem_drop]

theorem tileBits_getD (pixels : List Nat) (c0 : Nat) (m : Nat)
    (hm : m < pixels.length) :
    (tileBits pixels c0).getD m false = decide (pixels.getD m 0 = c0) := by
  have h1 : m < (tileBits pixels c0).length := by rw [tileBits_length]; exact hm
  rw [List.getD_eq_getElem _ _ h1, List.getD_eq_getElem _ _ hm]
  simp [tileBits]

theorem tilePixels_length (imdata : Nat → Nat) (i j : Nat) :
    (tilePixels imdata i j).length = 208 := by
  simp [tilePixels]

/-! ### Claim C1 -/

/-- Claim C1, as the spec states it, is false: the key bit is NOT 1 when the
pixel differs from color 0.  Concretely, on the all-zero image every pixel
equals color 0, yet bit 0 of byte 0 of the key of tile (0,0) is 1. -/
theorem c1_differs_convention_false :
    ¬ (∀ (imdata : Nat → Nat) (i j n b : Nat), i < 25 → j < 40 → n < 26 → b < 8 →
        (Nat.testBit ((tileKey (tilePixels imdata i j)).getD n 0) b = true ↔
          (tilePixels imdata i j).getD (8 * n + b) 0 ≠
            (tilePixels imdata i j).getD 0 0)) := by
  intro h
  have h0 := h (fun _ => 0) 0 0 0 0 (by decide) (by decide) (by decide) (by decide)
  have lhs : Nat.testBit ((tileKey (tilePixels (fun _ => 0) 0 0)).getD 0 0) 0 = true := by
    decide
  exact (h0.mp lhs) (by decide)

/-- Claim C1 (amended): for every 520x400 input image, the tile key is the
bitmask of the pixels in row-major order, 8 pixels per byte, little-endian
bit order, where a bit is 1 if and only if the pixel EQUALS the color of
the top-left pixel of the tile (color 0), and 0 when it differs. -/
theorem c1_key_bits_equal_convention (imdata : Nat → Nat) (i j n b : Nat)
    (hi : i < 25) (hj : j < 40) (hn : n < 26) (hb : b < 8) :
    Nat.testBit ((tileKey (tilePixels imdata i j)).getD n 0) b = true ↔
      (tilePixels imdata i j).getD (8 * n + b) 0 =
        (tilePixels imdata i j).getD 0 0 := by
  have hlen : (tilePixels imdata i j).length = 208 := tilePixels_length imdata i j
  rw [tileKey_getD _ hlen n hn, packByte_testBit,
    chunk_getD _ n b (by rw [tileBits_length, hlen]) hn hb,
    tileBits_getD _ _ _ (by omega)]
  exact decide_eq_true_iff

/-- Witness for C1 at a concrete image, tile and bit. -/
theorem c1_key_bits_equal_convention_witness :
    Nat.testBit ((tileKey (tilePixels (fun m => m) 0 0)).getD 0 0) 1 = true ↔
      (tilePixels (fun m => m) 0 0).getD 1 0 = (tilePixels (fun m => m) 0 0).getD 0 0 :=
  c1_key_bits_equal_convention (fun m => m) 0 0 0 1 (by decide) (by decide)
    (by decide) (by decide)

/-! ### Claim C2 -/

/-- Claim C2: the key depends only on the pattern of per-pixel equality with
the top-left pixel of the tile, never on the actual colors: two tiles with
the same equality pattern (in particular, with color 0 and color 1 swapped)
get the same key. -/
theorem c2_key_color_blind (p q : List Nat)
    (h : tileBits p (p.getD 0 0) = tileBits q (q.getD 0 0)) :
    tileKey p = tileKey q := by
  unfold tileKey
  rw [h]

/-- Witness for C2: a two-color tile and its color-swapped twin have equal
equality patterns, hence equal keys. -/
theorem c2_key_color_blind_witness :
    tileKey ((List.range 208).map fun m => m % 2) =
      tileKey ((List.range 208).map fun m => 1 - m % 2) :=
  c2_key_color_blind _ _ (by decide)

/-! ### Claim C8 -/

/-- Claim C8: a monochrome tile (every pixel equal to the top-left pixel)
reports color 1 equal to color 0. -/
theorem c8_monochrome_color1_eq_color0 (pal : Nat → Char) (pixels : List Nat)
    (h : ∀ p ∈ pixels, p = pixels.getD 0 0) :
    (tileColors pal pixels).2 = (tileColors pal pixels).1 := by
  have hall : false ∉ tileBits pixels (pixels.getD 0 0) := by
    intro hmem
    rw [tileBits, List.mem_map] at hmem
    obtain ⟨p, hp, hdec⟩ := hmem
    have := h p hp
    simp [this] at hdec
  unfold tileColors firstDifferent
  rw [if_neg hall]

/-- Witness for C8 on a concrete monochrome tile. -/
theorem c8_monochrome_color1_eq_color0_witness :
    (tileColors (fun _ => 'W') (List.replicate 208 3)).2 =
      (tileColors (fun _ => 'W') (List.replicate 208 3)).1 :=
  c8_monochrome_color1_eq_color0 _ _ (by decide)

/-! ### Symbolic tiles (common.py, ParsedTile) -/

/-- Double-height role constants of common.py. -/
def DH_FALSE : Nat := 0

/-- Role of a fully merged double-height tile. -/
def DH_TRUE : Nat := 1

/-- Role of the top half of a double-height character. -/
def DH_TOP : Nat := 2

/-- Role of the bottom half of a double-height character. -/
def DH_BOTTOM : Nat := 3

/-- Resolved symbolic tile, mirroring common.ParsedTile.  In Python `char`
holds None, a one-character string, or a parenthesized placeholder string;
we use `Option String`.  Colors are single-letter codes, None until
assigned, so `Option Char`. -/
structure ParsedTile where
  char : Option String
  shape_id : Nat
  fg_color : Option Char
  bg_color : Option Char
  dh_type : Nat
deriving Repr, DecidableEq

/-- Mirrors ParsedTile.is_shape_not_space: shape_id > 0. -/
def ParsedTile.is_shape_not_space (pt : ParsedTile) : Bool :=
  decide (0 < pt.shape_id)

/-- Mirrors ParsedTile.is_shape_or_space: char == ' ' or shape_id > 0. -/
def ParsedTile.is_shape_or_space (pt : ParsedTile) : Bool :=
  decide (pt.char = some " ") || decide (0 < pt.shape_id)

/-- Mirrors ParsedTile.invert_shape.  The Python default argument
newbg=None means "use the current foreground"; callers that rely on the
default pass `pt.fg_color` here. -/
def invert_shape (pt : ParsedTile) (newbg : Option Char) : ParsedTile :=
  { pt with
    fg_color := pt.bg_color
    bg_color := newbg
    shape_id := 63 - pt.shape_id
    char := if 63 - pt.shape_id = 0 then some " " else none }

/-! ### Double-height merging (fetch.py, merge_doubleheight and merge_rows) -/

/-- Substitution table sub_map of merge_doubleheight, keyed by the
concatenation of the top and bottom characters. -/
def sub_map_pairs : List (String × String) :=
  [("Fr", "F"), ("äa", "ä"), ("np", "p"), ("öo", "ö"), ("åa", "å"),
   ("il", "i"), ("du", "d"), ("ug", "y"), ("hb", "b"), ("Hn", "H"),
   ("uv", "v"), ("cs", "s"), ("Yf", "Y"), ("ÖO", "Ö"), ("Tf", "T"),
   ("FL", "E"), ("Mn", "M"), ("8U", "8"), ("35", "3"), (" .", "."),
   (" -", "-"), ("6U", "6"), ("ÄÅ", "Ä"), ("OQ", "Q"), ("ée", "é"),
   (" ,", ","), ("\" ", "\"")]

/-- Python string interpolation of a char field: None prints as "None".
Used by the sub_map key and by the placeholder fallback. -/
def strOfOpt : Option String → String
  | none => "None"
  | some s => s

/-- Mirrors merge_doubleheight of fetch.py.  Python assert failures are
modelled as `Except.error` carrying the failed assertion.  The Python local
`merged = bottom.copy(); merged.dh_type = DH_TRUE` is written inline as the
record update of bottom in every branch that returns it. -/
def merge_doubleheight (top bottom : ParsedTile) : Except String ParsedTile :=
  if top.bg_color ≠ bottom.bg_color then
    .error "assert top.bg_color == bottom.bg_color"
  else if top.char = some " " ∧ bottom.char = some " " then
    .ok { bottom with dh_type := DH_TRUE }
  else if (top.char ≠ some " " ∧ bottom.char ≠ some " ") ∧
      top.fg_color ≠ bottom.fg_color then
    .error "assert top.fg_color == bottom.fg_color"
  else if top.is_shape_not_space ≠ bottom.is_shape_not_space then
    .error "assert top.is_shape_not_space() == bottom.is_shape_not_space()"
  else if bottom.is_shape_not_space then
    if top.shape_id ≠ bottom.shape_id then
      .error "assert top.shape_id == bottom.shape_id"
    else .ok { bottom with dh_type := DH_TRUE }
  else if top.char ≠ some " " ∧ top.dh_type ≠ DH_TOP then
    .error "assert top.dh_type == DH_TOP"
  else if bottom.char ≠ some " " ∧ bottom.dh_type ≠ DH_BOTTOM then
    .error "assert bottom.dh_type == DH_BOTTOM"
  else if top.char = bottom.char then .ok { bottom with dh_type := DH_TRUE }
  else
    match sub_map_pairs.lookup (strOfOpt top.char ++ strOfOpt bottom.char) with
    | some c =>
      if bottom.char = some " " then
        .ok { top with dh_type := DH_TRUE, char := some c }
      else .ok { bottom with dh_type := DH_TRUE, char := some c }
    | none =>
      .ok { bottom with
              dh_type := DH_TRUE,
              char := some ("(" ++ strOfOpt top.char ++ "," ++
                strOfOpt bottom.char ++ ")") }

/-- Count of tiles of a row with the given dh role.  Mirrors
`sum(pt.dh_type == d for pt in parsed_tiles)` in merge_rows. -/
def countDh (row : List ParsedTile) (d : Nat) : Nat :=
  row.countP fun pt => decide (pt.dh_type = d)

/-- Column-aligned merge of two rows, mirroring
`for last_pt, pt in zip(last_pts, parsed_tiles): merge_doubleheight(...)`;
the first failing merge aborts, like a Python assert inside the loop. -/
def mergeZip : List ParsedTile → List ParsedTile → Except String (List ParsedTile)
  | a :: as, b :: bs => do
    let m ← merge_doubleheight a b
    let ms ← mergeZip as bs
    .ok (m :: ms)
  | _, _ => .ok []

/-- Worker for merge_rows: `prev` holds the previous original row
(parsed_tiless[i-1]), none while at the first row. -/
def mergeRowsAux : Option (List ParsedTile) → List (List ParsedTile) →
    Except String (List (List ParsedTile))
  | _, [] => .ok []
  | prev, r :: rest =>
    if countDh r DH_TOP = 0 ∧ countDh r DH_BOTTOM = 0 then do
      let rs ← mergeRowsAux (some r) rest
      .ok (r :: rs)
    else if countDh r DH_TOP ≠ 0 ∧ countDh r DH_BOTTOM ≠ 0 then
      .error "assert num_bottom == 0 or num_top == 0"
    else if countDh r DH_BOTTOM = 0 then
      mergeRowsAux (some r) rest
    else
      match prev with
      | none => .error "assert i > 0"
      | some last => do
        let merged ← mergeZip last r
        let rs ← mergeRowsAux (some r) rest
        .ok (merged :: rs)

/-- Mirrors merge_rows of fetch.py. -/
def merge_rows (rows : List (List ParsedTile)) : Except String (List (List ParsedTile)) :=
  mergeRowsAux none rows

/-! ### Claim C3 -/

/-- Claim C3, as stated, is false: merging a plain (non-space, non-shape)
character tile with itself does not succeed, it fails the assertion that a
non-space character top half was recorded with the top-half role. -/
theorem c3_self_merge_char_tile_fails :
    merge_doubleheight ⟨some "A", 0, some 'W', some 'K', DH_FALSE⟩
        ⟨some "A", 0, some 'W', some 'K', DH_FALSE⟩ =
      Except.error "assert top.dh_type == DH_TOP" := by
  rfl

/-- Claim C3 (amended): merging a tile with itself succeeds with content
unchanged and role merged whenever the tile is a blank space or a shape;
for a plain non-space character tile the self-merge fails the top-half
role assertion. -/
theorem c3_self_merge_space_or_shape (t : ParsedTile)
    (h : t.char = some " " ∨ 0 < t.shape_id) :
    merge_doubleheight t t = .ok { t with dh_type := DH_TRUE } := by
  rcases h with hsp | hsh
  · simp [merge_doubleheight, hsp]
  · by_cases hc : t.char = some " "
    · simp [merge_doubleheight, hc]
    · simp [merge_doubleheight, hc, ParsedTile.is_shape_not_space, hsh]

/-- Witness for C3 on a concrete blank-space tile. -/
theorem c3_self_merge_space_or_shape_witness :
    merge_doubleheight ⟨some " ", 0, some 'K', some 'K', DH_FALSE⟩
        ⟨some " ", 0, some 'K', some 'K', DH_FALSE⟩ =
      .ok ⟨some " ", 0, some 'K', some 'K', DH_TRUE⟩ :=
  c3_self_merge_space_or_shape ⟨some " ", 0, some 'K', some 'K', DH_FALSE⟩
    (Or.inl rfl)

/-! ### Claim C6 -/

/-- Claim C6: a subpage whose first row contains a bottom-half tile and no
top-half tile makes the merger fail with the missing-predecessor assertion
rather than skipping or silently merging the row. -/
theorem c6_bottom_first_row_error (r : List ParsedTile)
    (rest : List (List ParsedTile))
    (hb : 0 < countDh r DH_BOTTOM) (ht : countDh r DH_TOP = 0) :
    merge_rows (r :: rest) = Except.error "assert i > 0" := by
  unfold merge_rows mergeRowsAux
  rw [if_neg (by omega), if_neg (by omega), if_neg (by omega)]

/-- Witness for C6 on a concrete one-row grid. -/
theorem c6_bottom_first_row_error_witness :
    merge_rows [[⟨some "x", 0, some 'K', some 'K', DH_BOTTOM⟩]] =
      Except.error "assert i > 0" :=
  c6_bottom_first_row_error _ [] (by decide) (by decide)

/-! ### Tile database and resolver (fetch.py, Fetcher) -/

/-- Runtime key values of the Fetcher.  The program uses two distinct
Python types for tile keys built from the same 26 byte values: shipped
corpus entries carry bytes slices (`files[i*26:i*26+26]`, fetch.py:323)
and page tiles carry `bytes(keys[i, j])` (fetch.py:183), while
Tile.from_tile_im, used for the extra-tiles directory, returns
`tuple(np.dot(onebit.reshape(-1, 8), TWOP))` (fetch.py:74).  A Python
bytes value never compares equal to a tuple, even with identical
elements, so the two kinds are distinct constructors here. -/
inductive TileKey where
  | bytes (vals : List Nat)
  | tup (vals : List Nat)
deriving Repr, DecidableEq

/-- Database state of a Fetcher: the known_tiles set and the tile_data
mapping.  The set is a list of keys, the mapping a function from key to
optional template; both hold TileKey values because the corpus and the
extra-tiles directory feed keys of both Python types into them. -/
structure TileDb where
  known : List TileKey
  data : TileKey → Option ParsedTile

/-- Store a template under a key in the mapping. -/
def dbInsert (db : TileDb) (key : TileKey) (pt : ParsedTile) : TileDb :=
  { db with data := fun k => if k = key then some pt else db.data k }

/-- Single character of a filename at index 4, as the one-character string
fn[4] used by the char, topp and bott branches of handle_one. -/
def charAt4 (fn : String) : String :=
  String.singleton (fn.data.getD 4 ' ')

/-- Shape id parsed from a shape filename, int(fn[5:-4]).  The Python int()
raises on malformed digits; that failure path is unreachable for the
shipped corpus and is modelled as 0 here. -/
def shapeIdOf (fn : String) : Nat :=
  (((fn.drop 5).dropRight 4).toNat?).getD 0

/-- Mirrors handle_one inside Fetcher._read_tile_db: skip names shorter
than 5, skip keys already known, otherwise register the key as known and
store a template according to the filename tag, if any tag matches.
The caller passes a `TileKey.bytes` key for a shipped corpus entry and a
`TileKey.tup` key for an extra-tiles entry, matching the two key types
_read_tile_db builds (fetch.py:321-332). -/
def handle_one (fn : String) (key : TileKey) (db : TileDb) : TileDb :=
  if fn.length < 5 then db
  else if key ∈ db.known then db
  else
    let db1 : TileDb := { db with known := key :: db.known }
    let db2 := if fn.take 5 = "slash" then
      dbInsert db1 key ⟨some "/", 0, none, none, DH_FALSE⟩ else db1
    let db3 := if fn.take 5 = "slasT" then
      dbInsert db2 key ⟨some "/", 0, none, none, DH_TOP⟩ else db2
    let db4 := if fn.take 5 = "slasB" then
      dbInsert db3 key ⟨some "/", 0, none, none, DH_BOTTOM⟩ else db3
    let db5 := if fn.take 4 = "char" then
      dbInsert db4 key ⟨some (charAt4 fn), 0, none, none, DH_FALSE⟩ else db4
    let db6 := if fn.take 4 = "topp" then
      dbInsert db5 key ⟨some (charAt4 fn), 0, none, none, DH_TOP⟩ else db5
    let db7 := if fn.take 4 = "bott" then
      dbInsert db6 key ⟨some (charAt4 fn), 0, none, none, DH_BOTTOM⟩ else db6
    if fn.take 5 = "shape" then
      dbInsert db7 key ⟨none, shapeIdOf fn, none, none, DH_FALSE⟩ else db7

/-- Mirrors Fetcher._tile_db_lookup: on a miss return the default blank
tile and bump the per-page unknown counter; on a hit return a copy of the
stored template.  The counter is a total map from page number to count,
matching `num_unknown_tiles.get(page_num, 0)`.  Python dict lookup is
key-type agnostic, so the key type is a parameter: page scans call it at
the bytes key space, and the full mapping lives at TileKey. -/
def tile_db_lookup {α : Type} (data : α → Option ParsedTile) (counter : Nat → Nat)
    (key : α) (page : Nat) : ParsedTile × (Nat → Nat) :=
  match data key with
  | none =>
    (⟨some " ", 0, some 'K', some 'K', DH_FALSE⟩,
     fun p => if p = page then counter p + 1 else counter p)
  | some t => (t, counter)

/-- One step of Fetcher._scan_row for a single tile.  A page tile carries
the bytes key `bytes(keys[i, j])` built by get_tiles, so the 26-byte
pattern is wrapped as `TileKey.bytes` here.  The returned Bool records
whether the tile bitmap would be persisted to the extra-tiles directory
(Python saves exactly when the key is not yet known and the directory is
configured).  The resolved tile gets the live colors, color 0 as
background and color 1 as foreground. -/
def scan_one (db : TileDb) (counter : Nat → Nat) (pattern : List Nat)
    (colors : Char × Char) (page : Nat) :
    Bool × TileDb × ParsedTile × (Nat → Nat) :=
  let key := TileKey.bytes pattern
  let saved := decide (key ∉ db.known)
  let db2 := if key ∈ db.known then db else { db with known := key :: db.known }
  let r := tile_db_lookup db.data counter key page
  (saved, db2, { r.1 with bg_color := some colors.1, fg_color := some colors.2 }, r.2)

/-! ### Claim C5 -/

/-- Claim C5: a key with no entry in the tile mapping resolves to the blank
space tile (char a space, shape 0, role none) and bumps the unknown-tile
counter of that page by exactly one, leaving other pages untouched; the
lookup is total, never a fatal error. -/
theorem c5_unknown_tile_blank_and_count (data : List Nat → Option ParsedTile)
    (counter : Nat → Nat) (key : List Nat) (page : Nat)
    (h : data key = none) :
    (tile_db_lookup data counter key page).1 =
        ⟨some " ", 0, some 'K', some 'K', DH_FALSE⟩ ∧
      (tile_db_lookup data counter key page).2 page = counter page + 1 ∧
      ∀ q, q ≠ page → (tile_db_lookup data counter key page).2 q = counter q := by
  unfold tile_db_lookup
  rw [h]
  refine ⟨rfl, by simp, fun q hq => by simp [hq]⟩

/-- Witness for C5 on a concrete empty mapping. -/
theorem c5_unknown_tile_blank_and_count_witness :
    (tile_db_lookup (fun _ => none) (fun _ => 0) [9] 100).1 =
        ⟨some " ", 0, some 'K', some 'K', DH_FALSE⟩ ∧
      (tile_db_lookup (fun _ => none) (fun _ => 0) [9] 100).2 100 = 0 + 1 ∧
      ∀ q, q ≠ 100 → (tile_db_lookup (fun _ => none) (fun _ => 0) [9] 100).2 q = 0 :=
  c5_unknown_tile_blank_and_count (fun _ => none) (fun _ => 0) [9] 100 rfl

/-! ### Claim C10 -/

/-- Claim C10, as stated, is false for the extra-tiles directory it names:
an extra-tiles entry is registered under the tuple key of
Tile.from_tile_im, which never equals the bytes key of a page tile with
the same bit pattern, so the page tile is NOT already known and its
bitmap IS persisted.  Concretely: after loading an unrecognized
extra-tiles entry named bogus with pattern [7], the tuple key is in the
known set, no template is stored for the page key, yet scanning a page
tile with pattern [7] reports the bitmap as saved. -/
theorem c10_extra_tile_bitmap_persisted :
    TileKey.tup [7] ∈
        (handle_one "bogus" (TileKey.tup [7]) ⟨[], fun _ => none⟩).known ∧
      (handle_one "bogus" (TileKey.tup [7]) ⟨[], fun _ => none⟩).data
          (TileKey.bytes [7]) = none ∧
      (scan_one (handle_one "bogus" (TileKey.tup [7]) ⟨[], fun _ => none⟩)
          (fun _ => 0) [7] ('K', 'W') 100).1 = true := by
  decide

/-- Claim C10 (amended): an entry whose name has length at least 5 but
matches no recognized tag prefix gets its key added to the known set with
no template stored, and a page tile with that bit pattern then resolves to
blank space and bumps the unknown counter; whether the page tile bitmap is
persisted depends on the source of the entry.  A shipped corpus entry is
registered under a bytes key equal to the page key, so the bitmap is never
persisted.  An extra-tiles entry is registered under the tuple key of
Tile.from_tile_im, which never equals the page bytes key, so the first
page tile bearing the pattern IS persisted (and registers the bytes key,
so later ones are not). -/
theorem c10_unrecognized_tag_corpus_vs_extra (fn : String) (pattern : List Nat)
    (db : TileDb) (counter : Nat → Nat) (colors : Char × Char) (page : Nat)
    (hlen : 5 ≤ fn.length)
    (h1 : fn.take 5 ≠ "slash") (h2 : fn.take 5 ≠ "slasT")
    (h3 : fn.take 5 ≠ "slasB") (h4 : fn.take 4 ≠ "char")
    (h5 : fn.take 4 ≠ "topp") (h6 : fn.take 4 ≠ "bott")
    (h7 : fn.take 5 ≠ "shape")
    (hkb : TileKey.bytes pattern ∉ db.known)
    (hkt : TileKey.tup pattern ∉ db.known)
    (hinv : ∀ k, (db.data k).isSome = true → k ∈ db.known) :
    (TileKey.bytes pattern ∈ (handle_one fn (TileKey.bytes pattern) db).known ∧
      (handle_one fn (TileKey.bytes pattern) db).data (TileKey.bytes pattern) = none ∧
      scan_one (handle_one fn (TileKey.bytes pattern) db) counter pattern colors page =
        (false, handle_one fn (TileKey.bytes pattern) db,
         ⟨some " ", 0, some colors.2, some colors.1, DH_FALSE⟩,
         fun p => if p = page then counter p + 1 else counter p)) ∧
    (TileKey.tup pattern ∈ (handle_one fn (TileKey.tup pattern) db).known ∧
      (handle_one fn (TileKey.tup pattern) db).data (TileKey.bytes pattern) = none ∧
      scan_one (handle_one fn (TileKey.tup pattern) db) counter pattern colors page =
        (true,
         { handle_one fn (TileKey.tup pattern) db with
             known := TileKey.bytes pattern ::
               (handle_one fn (TileKey.tup pattern) db).known },
         ⟨some " ", 0, some colors.2, some colors.1, DH_FALSE⟩,
         fun p => if p = page then counter p + 1 else counter p) ∧
      (scan_one (scan_one (handle_one fn (TileKey.tup pattern) db) counter pattern
          colors page).2.1 counter pattern colors page).1 = false) := by
  have hlen5 : ¬ fn.length < 5 := by omega
  have hstep : ∀ key : TileKey, key ∉ db.known →
      handle_one fn key db = { db with known := key :: db.known } := by
    intro key hk
    unfold handle_one
    simp only [if_neg hlen5, if_neg hk, if_neg h1, if_neg h2, if_neg h3,
      if_neg h4, if_neg h5, if_neg h6, if_neg h7]
  have hdata : db.data (TileKey.bytes pattern) = none := by
    cases hd : db.data (TileKey.bytes pattern) with
    | none => rfl
    | some t => exact absurd (hinv _ (by rw [hd]; rfl)) hkb
  constructor
  · rw [hstep _ hkb]
    refine ⟨by simp, hdata, ?_⟩
    unfold scan_one tile_db_lookup
    simp [hdata]
  · rw [hstep _ hkt]
    have hmem : TileKey.bytes pattern ∉ (TileKey.tup pattern :: db.known) := by
      simp [hkb]
    refine ⟨by simp, hdata, ?_, ?_⟩
    · unfold scan_one tile_db_lookup
      simp [hdata, hmem]
    · unfold scan_one tile_db_lookup
      simp [hdata, hmem]

/-- Witness for C10 on a concrete unrecognized entry, in both the corpus
and the extra-tiles key space. -/
theorem c10_unrecognized_tag_corpus_vs_extra_witness :
    (TileKey.bytes [9] ∈
        (handle_one "weird" (TileKey.bytes [9]) ⟨[], fun _ => none⟩).known ∧
      (handle_one "weird" (TileKey.bytes [9]) ⟨[], fun _ => none⟩).data
          (TileKey.bytes [9]) = none ∧
      scan_one (handle_one "weird" (TileKey.bytes [9]) ⟨[], fun _ => none⟩)
          (fun _ => 0) [9] ('K', 'W') 100 =
        (false, handle_one "weird" (TileKey.bytes [9]) ⟨[], fun _ => none⟩,
         ⟨some " ", 0, some 'W', some 'K', DH_FALSE⟩,
         fun p => if p = 100 then (fun _ => 0 : Nat → Nat) p + 1
           else (fun _ => 0 : Nat → Nat) p)) ∧
    (TileKey.tup [9] ∈
        (handle_one "weird" (TileKey.tup [9]) ⟨[], fun _ => none⟩).known ∧
      (handle_one "weird" (TileKey.tup [9]) ⟨[], fun _ => none⟩).data
          (TileKey.bytes [9]) = none ∧
      scan_one (handle_one "weird" (TileKey.tup [9]) ⟨[], fun _ => none⟩)
          (fun _ => 0) [9] ('K', 'W') 100 =
        (true,
         { handle_one "weird" (TileKey.tup [9]) ⟨[], fun _ => none⟩ with
             known := TileKey.bytes [9] ::
               (handle_one "weird" (TileKey.tup [9]) ⟨[], fun _ => none⟩).known },
         ⟨some " ", 0, some 'W', some 'K', DH_FALSE⟩,
         fun p => if p = 100 then (fun _ => 0 : Nat → Nat) p + 1
           else (fun _ => 0 : Nat → Nat) p) ∧
      (scan_one (scan_one (handle_one "weird" (TileKey.tup [9])
          ⟨[], fun _ => none⟩) (fun _ => 0) [9] ('K', 'W') 100).2.1
          (fun _ => 0) [9] ('K', 'W') 100).1 = false) :=
  c10_unrecognized_tag_corpus_vs_extra "weird" [9] ⟨[], fun _ => none⟩
    (fun _ => 0) ('K', 'W') 100 (by decide) (by decide) (by decide) (by decide)
    (by decide) (by decide) (by decide) (by decide) (by simp) (by simp)
    (fun k h => by simp at h)

/-! ### Render heuristics (render.py) -/

/-- Loop body of heuristics Pass A (render.fgbg_fixups) for one tile:
given the page number, the subpage index and the carried last-seen
background, returns the possibly inverted tile and the new carried
background.  The full pass folds this over the grid in row-major order
with the carried background seeded to the black code. -/
def fgbg_fixup_step (page subpageid : Nat) (lastbg : Option Char)
    (pt : ParsedTile) : ParsedTile × Option Char :=
  if ¬ (pt.char = some " " ∨ 0 < pt.shape_id) then (pt, lastbg)
  else if pt.char = some " " then
    if pt.bg_color = some 'Y' ∧ lastbg = some 'B' then
      (invert_shape pt lastbg, lastbg)
    else if page = 401 ∧ pt.bg_color ≠ some 'K' then
      (invert_shape pt (some 'K'), lastbg)
    else if page = 777 ∧ subpageid = 2 ∧ pt.bg_color = some 'C' ∧
        pt.fg_color = some 'K' then
      (invert_shape pt (some 'K'), lastbg)
    else if page = 777 ∧ subpageid < 2 then (pt, pt.bg_color)
    else if ¬ (page = 129 ∨ page = 149) ∧ pt.bg_color = some 'W' then
      (invert_shape pt lastbg, lastbg)
    else (pt, pt.bg_color)
  else
    if pt.fg_color = some 'K' ∨ pt.bg_color = some 'W' then
      (invert_shape pt pt.fg_color, lastbg)
    else if pt.bg_color = some 'Y' ∧ pt.fg_color = some 'B' then
      (invert_shape pt pt.fg_color, lastbg)
    else (pt, lastbg)

/-- Loop body of heuristics Pass B (render.remove_fg_back_and_forth): the
only mutation that the pass performs on a tile is overwriting its
foreground color. -/
def setFg (pt : ParsedTile) (c : Option Char) : ParsedTile :=
  { pt with fg_color := c }

/-- Mirrors render.getboxchar.  The four gap codes 0, 21, 42, 63 map to
space and the left-half, right-half and full blocks; other shape ids map
into the 2x3 box-element range 0x1FB00.  Python would raise an IndexError
for a gap beyond the four listed; that path needs a shape id above 63 and
is modelled by the list default. -/
def getboxchar (x : Nat) : Char :=
  let d := (x + 20) / 21
  if (x + 20) % 21 = 20 then [' ', '▌', '▐', '█'].getD d ' '
  else Char.ofNat (0x1FB00 + x - d)

/-- Mirrors render.getbraille: shuffle the six shape bits into the braille
dot order and offset into the braille block at 10240. -/
def getbraille (x : Nat) : Char :=
  Char.ofNat (10240 + ((x &&& 33) ||| ((x &&& 2) <<< 2) ||| ((x &&& 4) >>> 1) |||
    ((x &&& 8) <<< 1) ||| ((x &&& 16) >>> 2)))

/-- Loop body of heuristics Pass C (render.apply_shapes) for one tile:
a non-space shape gets its glyph written into char, chosen by the global
braille flag. -/
def apply_shapes_step (braille : Bool) (pt : ParsedTile) : ParsedTile :=
  if 0 < pt.shape_id then
    { pt with char := some (String.singleton
        (if braille then getbraille pt.shape_id else getboxchar pt.shape_id)) }
  else pt

/-! ### Claim C4 -/

/-- Claim C4, as stated, is false: in Pass A a non-space shape with yellow
background and BLUE foreground is inverted, although the claim only allows
inversion for black foreground, white background, or the
(yellow background, black foreground) pair.  The code letter B is blue in
COLOR_TABLE; black is K. -/
theorem c4_yellow_blue_inverted :
    (fgbg_fixup_step 100 0 (some 'K') ⟨none, 5, some 'B', some 'Y', DH_FALSE⟩).1 ≠
        ⟨none, 5, some 'B', some 'Y', DH_FALSE⟩ ∧
      ¬ ((⟨none, 5, some 'B', some 'Y', DH_FALSE⟩ : ParsedTile).fg_color = some 'K' ∨
        (⟨none, 5, some 'B', some 'Y', DH_FALSE⟩ : ParsedTile).bg_color = some 'W' ∨
        ((⟨none, 5, some 'B', some 'Y', DH_FALSE⟩ : ParsedTile).bg_color = some 'Y' ∧
          (⟨none, 5, some 'B', some 'Y', DH_FALSE⟩ : ParsedTile).fg_color = some 'K')) := by
  decide

/-- Claim C4 (amended): in Pass A a non-space shape tile is inverted if and
only if its foreground is black (K), or its background is white (W), or its
(background, foreground) pair is (yellow, BLUE) — the pair check of the code
is Y with B, and B is blue, not black; no other non-space shape tile is
changed, and the carried background is left untouched by this branch. -/
theorem c4_nonspace_shape_invert_iff (page subpageid : Nat) (st : Option Char)
    (pt : ParsedTile) (hch : pt.char ≠ some " ") (hsh : 0 < pt.shape_id) :
    fgbg_fixup_step page subpageid st pt =
      (if pt.fg_color = some 'K' ∨ pt.bg_color = some 'W' ∨
          (pt.bg_color = some 'Y' ∧ pt.fg_color = some 'B')
        then invert_shape pt pt.fg_color else pt, st) := by
  unfold fgbg_fixup_step
  rw [if_neg (not_not_intro (Or.inr hsh)), if_neg hch]
  by_cases h1 : pt.fg_color = some 'K' ∨ pt.bg_color = some 'W'
  · rw [if_pos h1, if_pos (by tauto)]
  · rw [if_neg h1]
    by_cases h2 : pt.bg_color = some 'Y' ∧ pt.fg_color = some 'B'
    · rw [if_pos h2, if_pos (by tauto)]
    · rw [if_neg h2, if_neg (by tauto)]

/-- Witness for C4 on a concrete black-foreground shape tile. -/
theorem c4_nonspace_shape_invert_iff_witness :
    fgbg_fixup_step 100 0 (some 'K') ⟨none, 5, some 'K', some 'G', DH_FALSE⟩ =
      (if (⟨none, 5, some 'K', some 'G', DH_FALSE⟩ : ParsedTile).fg_color = some 'K' ∨
          (⟨none, 5, some 'K', some 'G', DH_FALSE⟩ : ParsedTile).bg_color = some 'W' ∨
          ((⟨none, 5, some 'K', some 'G', DH_FALSE⟩ : ParsedTile).bg_color = some 'Y' ∧
            (⟨none, 5, some 'K', some 'G', DH_FALSE⟩ : ParsedTile).fg_color = some 'B')
        then invert_shape ⟨none, 5, some 'K', some 'G', DH_FALSE⟩
          (⟨none, 5, some 'K', some 'G', DH_FALSE⟩ : ParsedTile).fg_color
        else ⟨none, 5, some 'K', some 'G', DH_FALSE⟩, some 'K') :=
  c4_nonspace_shape_invert_iff 100 0 (some 'K') ⟨none, 5, some 'K', some 'G', DH_FALSE⟩
    (by decide) (by decide)

/-! ### Claim C9 -/

/-- Claim C9: both glyph encodings are injective on shape ids 0..63, the
four block-mode gap codes included. -/
theorem c9_glyphs_injective : ∀ x, x < 64 → ∀ y, y < 64 → x ≠ y →
    getbraille x ≠ getbraille y ∧ getboxchar x ≠ getboxchar y := by
  decide

/-- Witness for C9 at a concrete pair of shape ids. -/
theorem c9_glyphs_injective_witness :
    getbraille 1 ≠ getbraille 2 ∧ getboxchar 1 ≠ getboxchar 2 :=
  c9_glyphs_injective 1 (by decide) 2 (by decide) (by decide)

/-! ### Claim C7: content invariant -/

/-- Whether a char field holds a present, non-space value. -/
def isNonSpaceChar : Option String → Bool
  | none => false
  | some s => decide (s ≠ " ")

/-- Formalization of the spec invariant on a Symbolic Tile: exactly one of
a non-space char and a positive shape id carries the visible content, and a
pure space has a space char with shape id 0. -/
def content_invariant (pt : ParsedTile) : Bool :=
  (isNonSpaceChar pt.char && decide (pt.shape_id = 0)) ||
  (!isNonSpaceChar pt.char && decide (0 < pt.shape_id)) ||
  (decide (pt.char = some " ") && decide (pt.shape_id = 0))

/-- Inverting a shape always reestablishes the content invariant: the new
char is a space exactly when the complemented shape id is 0, else absent. -/
theorem content_invariant_invert (pt : ParsedTile) (newbg : Option Char) :
    content_invariant (invert_shape pt newbg) = true := by
  unfold invert_shape content_invariant isNonSpaceChar
  by_cases h : 63 - pt.shape_id = 0
  · simp [h]
  · simp [h]
    omega

/-- A successful lookup value of a list of pairs is one of the stored
second components. -/
theorem lookup_mem_values {α β : Type} [DecidableEq α] (l : List (α × β))
    (a : α) (b : β) (h : l.lookup a = some b) : b ∈ l.map Prod.snd := by
  induction l with
  | nil => simp [List.lookup] at h
  | cons p l ih =>
    obtain ⟨k, v⟩ := p
    rw [List.lookup] at h
    by_cases hk : a = k
    · simp [hk] at h
      simp [h]
    · have hbeq : (a == k) = false := by simpa using hk
      rw [hbeq] at h
      simp [ih h]

/-- Every substitution value of the double-height table is a non-space
character. -/
theorem sub_map_values_nonspace (k c : String)
    (h : sub_map_pairs.lookup k = some c) : c ≠ " " := by
  have hmem := lookup_mem_values _ _ _ h
  have hall : ∀ v ∈ sub_map_pairs.map Prod.snd, v ≠ " " := by decide
  exact hall c hmem

/-- The placeholder string of an unmatched double-height pair is never a
single space: it is three characters longer than the two source chars. -/
theorem placeholder_nonspace (a b : String) :
    ("(" ++ a ++ "," ++ b ++ ")") ≠ " " := by
  intro h
  have hlen := congrArg String.length h
  rw [String.length_append, String.length_append, String.length_append] at hlen
  have e1 : "(".length = 1 := rfl
  have e2 : ",".length = 1 := rfl
  have e3 : ")".length = 1 := rfl
  have e4 : " ".length = 1 := rfl
  omega

/-- Merging two tiles that satisfy the content invariant yields a tile that
satisfies it. -/
theorem content_invariant_merge (top bottom m : ParsedTile)
    (htop : content_invariant top = true) (hbot : content_invariant bottom = true)
    (h : merge_doubleheight top bottom = .ok m) : content_invariant m = true := by
  unfold merge_doubleheight at h
  split_ifs at h with h1 h2 h3 h4 h5 h6 h7 h8 h9 h10
  any_goals solve | (cases h; exact hbot)
  · have hbot0 : bottom.shape_id = 0 := by
      have hx : ¬ 0 < bottom.shape_id := fun hx =>
        h5 (by simpa [ParsedTile.is_shape_not_space] using hx)
      omega
    have htop0 : top.shape_id = 0 := by
      have he : top.is_shape_not_space = bottom.is_shape_not_space := by tauto
      have hx : ¬ 0 < top.shape_id := by
        intro hx
        have hy : top.is_shape_not_space = true := by
          simpa [ParsedTile.is_shape_not_space] using hx
        rw [he] at hy
        exact h5 hy
      omega
    split at h
    next c heq =>
      cases h
      have hc := sub_map_values_nonspace _ _ heq
      simp [content_invariant, isNonSpaceChar, hc, htop0]
    next heq =>
      cases h
      simp [content_invariant, isNonSpaceChar, placeholder_nonspace, hbot0]
  · have hbot0 : bottom.shape_id = 0 := by
      have hx : ¬ 0 < bottom.shape_id := fun hx =>
        h5 (by simpa [ParsedTile.is_shape_not_space] using hx)
      omega
    split at h
    next c heq =>
      cases h
      have hc := sub_map_values_nonspace _ _ heq
      simp [content_invariant, isNonSpaceChar, hc, hbot0]
    next heq =>
      cases h
      simp [content_invariant, isNonSpaceChar, placeholder_nonspace, hbot0]

/-- A database lookup yields a tile satisfying the content invariant when
every stored template does; the synthesized blank tile satisfies it by
construction. -/
theorem content_invariant_lookup (data : List Nat → Option ParsedTile)
    (counter : Nat → Nat) (key : List Nat) (page : Nat)
    (hdb : ∀ k t, data k = some t → content_invariant t = true) :
    content_invariant (tile_db_lookup data counter key page).1 = true := by
  unfold tile_db_lookup
  cases hd : data key with
  | none => rfl
  | some t => exact hdb key t hd

/-- One step of Pass A preserves the content invariant: the tile either
passes through unchanged or is inverted, and inversion reestablishes the
invariant. -/
theorem content_invariant_fgbg (page subpageid : Nat) (st : Option Char)
    (pt : ParsedTile) (h : content_invariant pt = true) :
    content_invariant (fgbg_fixup_step page subpageid st pt).1 = true := by
  unfold fgbg_fixup_step
  split_ifs
  all_goals first
    | exact h
    | exact content_invariant_invert pt st

/-- Every materialized glyph of an in-range non-space shape id is a
non-space one-character string, in both display modes. -/
theorem glyph_nonspace : ∀ x, x < 64 → 0 < x →
    String.singleton (getboxchar x) ≠ " " ∧ String.singleton (getbraille x) ≠ " " := by
  decide

/-- Pass C on an in-range non-space shape keeps the shape id and writes a
non-space glyph into char. -/
theorem content_after_apply (braille : Bool) (pt : ParsedTile)
    (h0 : 0 < pt.shape_id) (h63 : pt.shape_id ≤ 63) :
    (apply_shapes_step braille pt).shape_id = pt.shape_id ∧
      isNonSpaceChar (apply_shapes_step braille pt).char = true := by
  unfold apply_shapes_step
  rw [if_pos h0]
  refine ⟨rfl, ?_⟩
  have hg := glyph_nonspace pt.shape_id (by omega) h0
  cases braille
  · simpa [isNonSpaceChar] using hg.1
  · simpa [isNonSpaceChar] using hg.2

/-! ### Claim C7 theorems -/

/-- Claim C7, as stated, is false for the glyph materialization pass: a
shape tile satisfies the invariant before Pass C, but after it the tile has
a non-space char AND a positive shape id, so no longer exactly one content
carrier. -/
theorem c7_materialization_breaks_invariant :
    content_invariant ⟨none, 63, some 'W', some 'K', DH_FALSE⟩ = true ∧
      content_invariant
        (apply_shapes_step false ⟨none, 63, some 'W', some 'K', DH_FALSE⟩) = false := by
  decide

/-- Claim C7 (amended): the content invariant (exactly one of non-space
char and positive shape id carries the content, a pure space having a space
char and shape id 0) holds after resolution and is preserved by the
double-height merge, by Pass A (fg/bg fixup) and by Pass B (flicker
suppression, which only rewrites a foreground color); Pass C (glyph
materialization) instead retains the positive shape id while writing the
non-space glyph into char, so after it a shape tile carries both. -/
theorem c7_invariant_passes :
    (∀ (data : List Nat → Option ParsedTile) (counter : Nat → Nat)
        (key : List Nat) (page : Nat),
      (∀ k t, data k = some t → content_invariant t = true) →
        content_invariant (tile_db_lookup data counter key page).1 = true) ∧
    (∀ top bottom m : ParsedTile, content_invariant top = true →
      content_invariant bottom = true → merge_doubleheight top bottom = .ok m →
        content_invariant m = true) ∧
    (∀ (page subpageid : Nat) (st : Option Char) (pt : ParsedTile),
      content_invariant pt = true →
        content_invariant (fgbg_fixup_step page subpageid st pt).1 = true) ∧
    (∀ (pt : ParsedTile) (c : Option Char),
      content_invariant (setFg pt c) = content_invariant pt) ∧
    (∀ (braille : Bool) (pt : ParsedTile), 0 < pt.shape_id → pt.shape_id ≤ 63 →
      (apply_shapes_step braille pt).shape_id = pt.shape_id ∧
        isNonSpaceChar (apply_shapes_step braille pt).char = true) :=
  ⟨content_invariant_lookup, content_invariant_merge, content_invariant_fgbg,
   fun _ _ => rfl, content_after_apply⟩

/-- Witness for C7: each conjunct applied at a concrete input. -/
theorem c7_invariant_passes_witness :
    content_invariant (tile_db_lookup (fun _ => none) (fun _ => 0) [3] 7).1 = true ∧
      content_invariant ⟨some " ", 0, some 'K', some 'K', DH_TRUE⟩ = true ∧
      content_invariant
        (fgbg_fixup_step 100 0 (some 'K')
          ⟨some " ", 0, some 'K', some 'W', DH_FALSE⟩).1 = true ∧
      content_invariant (setFg ⟨some "A", 0, some 'R', some 'K', DH_FALSE⟩ (some 'G')) =
        content_invariant ⟨some "A", 0, some 'R', some 'K', DH_FALSE⟩ ∧
      ((apply_shapes_step true ⟨none, 7, some 'R', some 'K', DH_FALSE⟩).shape_id = 7 ∧
        isNonSpaceChar
          (apply_shapes_step true ⟨none, 7, some 'R', some 'K', DH_FALSE⟩).char = true) :=
  ⟨c7_invariant_passes.1 (fun _ => none) (fun _ => 0) [3] 7 (fun k t ht => by simp at ht),
   c7_invariant_passes.2.1 ⟨some " ", 0, some 'K', some 'K', DH_FALSE⟩
     ⟨some " ", 0, some 'K', some 'K', DH_FALSE⟩ _ (by decide) (by decide) rfl,
   c7_invariant_passes.2.2.1 100 0 (some 'K')
     ⟨some " ", 0, some 'K', some 'W', DH_FALSE⟩ (by decide),
   c7_invariant_passes.2.2.2.1 ⟨some "A", 0, some 'R', some 'K', DH_FALSE⟩ (some 'G'),
   c7_invariant_passes.2.2.2.2 true ⟨none, 7, some 'R', some 'K', DH_FALSE⟩
     (by decide) (by decide)⟩
